import Mathlib

/-!
Shallow embedding of the two plugin scripts in `tools/example_script/` of the
repository: `example.py` and `login_bruteforce_reset.py`.  Each script defines
a `condition(data)` predicate and an `execute(data)` action over a metadata
mapping.  The embedding models Python values, dictionary lookups, name
resolution against module globals, the observable effects (console output,
the append-only log file, the outbound HTTP POST) and exception propagation.
-/

/-- The Python values the two scripts manipulate. -/
inductive PyVal where
  | pyNone
  | pyBool (b : Bool)
  | pyInt (n : Int)
  | pyStr (s : String)
  | pyDict (entries : List (String × PyVal))

/-- A metadata mapping, i.e. the `data` argument: key-value pairs. -/
abbrev PyDict := List (String × PyVal)

/-- The Python exceptions the embedded code can raise. -/
inductive PyError where
  | nameError (name : String)
  | keyError (key : String)
  | attributeError (attr : String)
  | typeError (msg : String)
  | osError (msg : String)
  | requestException (msg : String)
deriving DecidableEq

/-- Observable side effects of a hook invocation, in order of occurrence. -/
inductive Effect where
  | printLine (s : String)
  | fileOpenAppend (path : String)
  | fileWrite (path : String) (content : String)
  | fileClose (path : String)
  | httpPost (url : String) (formBody : List (String × String))
deriving DecidableEq

/-- Python truthiness of a value, as used by `if` on a lookup result. -/
def truthy : PyVal → Bool
  | PyVal.pyNone => false
  | PyVal.pyBool b => b
  | PyVal.pyInt n => n != 0
  | PyVal.pyStr s => s != ""
  | PyVal.pyDict d => !d.isEmpty

mutual

/-- Python `==` on the values above; `bool` compares numerically with `int`,
dictionaries compare entrywise, mismatched types compare unequal without
raising. -/
def pyEq : PyVal → PyVal → Bool
  | PyVal.pyNone, PyVal.pyNone => true
  | PyVal.pyBool a, PyVal.pyBool b => a == b
  | PyVal.pyBool a, PyVal.pyInt n => (if a then (1 : Int) else 0) == n
  | PyVal.pyInt n, PyVal.pyBool a => n == (if a then (1 : Int) else 0)
  | PyVal.pyInt a, PyVal.pyInt b => a == b
  | PyVal.pyStr a, PyVal.pyStr b => a == b
  | PyVal.pyDict a, PyVal.pyDict b => pyDictEq a b
  | _, _ => false

/-- Entrywise equality of two dictionaries, in entry order. -/
def pyDictEq : List (String × PyVal) → List (String × PyVal) → Bool
  | [], [] => true
  | (k1, v1) :: r1, (k2, v2) :: r2 => k1 == k2 && pyEq v1 v2 && pyDictEq r1 r2
  | _, _ => false

end

/-- Python `v > n` against an integer literal: numeric values compare,
anything else raises a TypeError. -/
def pyGtInt (v : PyVal) (n : Int) : Except PyError Bool :=
  match v with
  | PyVal.pyInt m => Except.ok (decide (m > n))
  | PyVal.pyBool b => Except.ok (decide ((if b then (1 : Int) else 0) > n))
  | _ => Except.error (PyError.typeError "unsupported comparison with int")

/-- Python `v.get(key, default)`: defined on dictionaries, raises an
AttributeError on anything else; a missing key yields the default. -/
def pyGet (v : PyVal) (key : String) (default : PyVal) : Except PyError PyVal :=
  match v with
  | PyVal.pyDict entries =>
    match List.lookup key entries with
    | some x => Except.ok x
    | Option.none => Except.ok default
  | _ => Except.error (PyError.attributeError "get")

/-- Python `v[key]`: defined on dictionaries, raises a KeyError on a missing
key and a TypeError on a non-dictionary. -/
def pySubscript (v : PyVal) (key : String) : Except PyError PyVal :=
  match v with
  | PyVal.pyDict entries =>
    match List.lookup key entries with
    | some x => Except.ok x
    | Option.none => Except.error (PyError.keyError key)
  | _ => Except.error (PyError.typeError "object is not subscriptable")

/-- Python `str(v)`, as interpolated inside the f-strings of `example.py`. -/
def pyStrOf : PyVal → String
  | PyVal.pyNone => "None"
  | PyVal.pyBool true => "True"
  | PyVal.pyBool false => "False"
  | PyVal.pyInt n => toString n
  | PyVal.pyStr s => s
  | PyVal.pyDict _ => "dict"

/-- The world a hook call runs in: the module-global bindings the code reads
(`response` and `request_data` are free names in `example.py`, resolved as
globals at each use; `Option.none` means unbound), the contents of the log
file, captured console output, the open file descriptors, and fault switches
deciding whether the file write and the network call succeed. -/
structure World where
  response : Option PyVal
  request_data : Option PyVal
  successful_guesses : String
  stdout : List String
  openFds : List String
  writeFault : Option PyError
  netFault : Option PyError

/-- Outcome of one hook call: the returned value or the exception that
escaped, the `data` mapping as it stands after the call (Python passes the
mapping by reference), the final world, and the ordered effect trace. -/
structure HookResult where
  result : Except PyError PyVal
  data : PyDict
  world : World
  trace : List Effect

/-- The relative path hardcoded at line 29 of `example.py`. -/
def logName : String := "successful_guesses.txt"

/-- The world of `example.py` as the module stands: no import and no
assignment ever binds `response` or `request_data`, so both globals are
unbound; log contents and captured output are arbitrary. -/
def moduleWorld (log : String) (out : List String) : World :=
  { response := Option.none
    request_data := Option.none
    successful_guesses := log
    stdout := out
    openFds := []
    writeFault := Option.none
    netFault := Option.none }

/-- Lines 11-17 of `example.py`: return whether the lookup of the key
`code` on the global `response` (default `None`) equals 200.  The name
`response` is resolved as a module global; the parameter `data` is never
read. -/
def example_condition (data : PyDict) (w : World) : HookResult :=
  match w.response with
  | Option.none =>
    { result := Except.error (PyError.nameError "response")
      data := data, world := w, trace := [] }
  | some resp =>
    match pyGet resp "code" PyVal.pyNone with
    | Except.error e => { result := Except.error e, data := data, world := w, trace := [] }
    | Except.ok code =>
      { result := Except.ok (PyVal.pyBool (pyEq code (PyVal.pyInt 200)))
        data := data, world := w, trace := [] }

/-- Lines 24-25 of `example.py`: with the comparison of the key `chars`
of the global `response` (default 0) against 1000 already computed, print
the message interpolating the entry `candidate_char` of `request_data`
when the comparison is true.  `request_data` is resolved as a module
global. -/
def printLargeBranch (isLarge : Bool) (w : World) : Except PyError (World × List Effect) :=
  if isLarge then
    match w.request_data with
    | Option.none => Except.error (PyError.nameError "request_data")
    | some rd =>
      match pySubscript rd "candidate_char" with
      | Except.error e => Except.error e
      | Except.ok v =>
        let msg := "Large response detected for " ++ pyStrOf v
        Except.ok ({ w with stdout := w.stdout ++ [msg] }, [Effect.printLine msg])
  else Except.ok (w, [])

/-- Lines 29-30 of `example.py`: open the log file in append mode inside a
with-statement and write the entry `candidate_string` of the global
`request_data` followed by a newline.  The context manager closes the file
before the exception, if any, leaves the block: the close is appended to
the trace and the descriptor released on every path. -/
def logAppendBlock (data : PyDict) (w : World) (tr : List Effect) : HookResult :=
  let wOpen := { w with openFds := logName :: w.openFds }
  let trOpen := tr ++ [Effect.fileOpenAppend logName]
  match wOpen.request_data with
  | Option.none =>
    { result := Except.error (PyError.nameError "request_data")
      data := data
      world := { wOpen with openFds := w.openFds }
      trace := trOpen ++ [Effect.fileClose logName] }
  | some rd =>
    match pySubscript rd "candidate_string" with
    | Except.error e =>
      { result := Except.error e
        data := data
        world := { wOpen with openFds := w.openFds }
        trace := trOpen ++ [Effect.fileClose logName] }
    | Except.ok v =>
      match wOpen.writeFault with
      | some e =>
        { result := Except.error e
          data := data
          world := { wOpen with openFds := w.openFds }
          trace := trOpen ++ [Effect.fileClose logName] }
      | Option.none =>
        let line := pyStrOf v ++ "\n"
        { result := Except.ok PyVal.pyNone
          data := data
          world := { wOpen with
                      openFds := w.openFds
                      successful_guesses := w.successful_guesses ++ line }
          trace := trOpen ++ [Effect.fileWrite logName line, Effect.fileClose logName] }

/-- Line 28 of `example.py`: test the key `show_response` of the global
`response` (default `False`), then run the log-append block when the flag
is truthy.  `response` is resolved as a module global again at this second
use. -/
def showResponseBranch (data : PyDict) (w : World) (tr : List Effect) : HookResult :=
  match w.response with
  | Option.none =>
    { result := Except.error (PyError.nameError "response")
      data := data, world := w, trace := tr }
  | some resp =>
    match pyGet resp "show_response" (PyVal.pyBool false) with
    | Except.error e => { result := Except.error e, data := data, world := w, trace := tr }
    | Except.ok flag =>
      if truthy flag then logAppendBlock data w tr
      else { result := Except.ok PyVal.pyNone, data := data, world := w, trace := tr }

/-- Lines 19-30 of `example.py`: the body reads the module-global names
`response` and `request_data`; the parameter `data` is never read, no
statement returns a value, and no exception is caught. -/
def example_execute (data : PyDict) (w : World) : HookResult :=
  match w.response with
  | Option.none =>
    { result := Except.error (PyError.nameError "response")
      data := data, world := w, trace := [] }
  | some resp =>
    match pyGet resp "chars" (PyVal.pyInt 0) with
    | Except.error e => { result := Except.error e, data := data, world := w, trace := [] }
    | Except.ok chars =>
      match pyGtInt chars 1000 with
      | Except.error e => { result := Except.error e, data := data, world := w, trace := [] }
      | Except.ok isLarge =>
        match printLargeBranch isLarge w with
        | Except.error e => { result := Except.error e, data := data, world := w, trace := [] }
        | Except.ok (w1, tr1) => showResponseBranch data w1 tr1

/-- Lines 14-20 of `login_bruteforce_reset.py`: `return True`. -/
def login_condition (data : PyDict) (w : World) : HookResult :=
  { result := Except.ok (PyVal.pyBool true), data := data, world := w, trace := [] }

/-- The fixed URL hardcoded at line 31 of `login_bruteforce_reset.py`. -/
def loginUrl : String :=
  "https://0a3100ff0382720182647ef4006100c2.web-security-academy.net/login"

/-- Lines 27-30 of `login_bruteforce_reset.py`: the hardcoded two-field
form body. -/
def credentials : List (String × String) :=
  [("username", "wiener"), ("password", "peter")]

/-- Lines 22-31 of `login_bruteforce_reset.py`: a single `requests.post` to
the fixed URL with the hardcoded credentials; the returned response object
is bound to a local name and never inspected, no status is checked, no
exception is caught, and the parameter `data` is never read. -/
def login_execute (data : PyDict) (w : World) : HookResult :=
  match w.netFault with
  | some e =>
    { result := Except.error e
      data := data, world := w
      trace := [Effect.httpPost loginUrl credentials] }
  | Option.none =>
    { result := Except.ok PyVal.pyNone
      data := data, world := w
      trace := [Effect.httpPost loginUrl credentials] }

/-- Builtin names in scope when a module body executes; these are the
builtins the scripts mention. -/
def builtinNames : List String := ["bool", "str", "int", "print", "open", "len"]

/-- `example.py` contains no import statement: lines 1-10 are a docstring,
line 11 is already the first `def`. -/
def exampleImports : List String := []

/-- The names referenced by the annotations of `condition` at line 11 of
`example.py` in evaluation order: `data: Dict[str, Any]` then the return
annotation `bool`, all evaluated when the `def` statement executes. -/
def annotNamesCondition : List String := ["Dict", "str", "Any", "bool"]

/-- The names referenced by the annotations of `execute` at line 19 of
`example.py`: `data: Dict[str, Any]`, no return annotation. -/
def annotNamesExecute : List String := ["Dict", "str", "Any"]

/-- Resolve a list of names against a scope, raising a NameError at the
first unbound name. -/
def resolveNames (scope : List String) : List String → Except PyError Unit
  | [] => Except.ok ()
  | n :: rest =>
    if n ∈ scope then resolveNames scope rest
    else Except.error (PyError.nameError n)

/-- Executing the top level of `example.py`: the docstring binds nothing,
then each `def` evaluates its annotations in the scope of the module
imports plus builtins before the function name is bound.  On success the
module namespace would hold both hooks. -/
def importExample : Except PyError (List String) :=
  match resolveNames (exampleImports ++ builtinNames) annotNamesCondition with
  | Except.error e => Except.error e
  | Except.ok _ =>
    match resolveNames (exampleImports ++ builtinNames ++ ["condition"]) annotNamesExecute with
    | Except.error e => Except.error e
    | Except.ok _ => Except.ok ["condition", "execute"]

/-- A world whose globals let `execute` reach the log-append branch while the
file write is set to raise an OSError. -/
def worldLogFault : World :=
  { response := some (PyVal.pyDict [("show_response", PyVal.pyBool true)])
    request_data := some (PyVal.pyDict [("candidate_string", PyVal.pyStr "guess")])
    successful_guesses := ""
    stdout := []
    openFds := []
    writeFault := some (PyError.osError "disk full")
    netFault := Option.none }

/-- A fault-free world whose `response` global is an empty dictionary, so both
`execute` bodies complete normally. -/
def worldQuiet : World :=
  { response := some (PyVal.pyDict [])
    request_data := Option.none
    successful_guesses := ""
    stdout := []
    openFds := []
    writeFault := Option.none
    netFault := Option.none }

/-- A world whose network call is set to raise a requests exception. -/
def worldNetFault : World :=
  { response := Option.none
    request_data := Option.none
    successful_guesses := ""
    stdout := []
    openFds := []
    writeFault := Option.none
    netFault := some (PyError.requestException "connection timed out") }

/-- A world whose `request_data` global is a dictionary without the
`candidate_string` key, so the subscript at line 30 raises a KeyError. -/
def worldNoCandidate : World :=
  { response := some (PyVal.pyDict [("show_response", PyVal.pyBool true)])
    request_data := some (PyVal.pyDict [("payload", PyVal.pyStr "x")])
    successful_guesses := ""
    stdout := []
    openFds := []
    writeFault := Option.none
    netFault := Option.none }

/-! ### Helper lemmas about the embedded hooks -/

theorem logAppendBlock_data_eq (data : PyDict) (w : World) (tr : List Effect) :
    (logAppendBlock data w tr).data = data := by
  simp only [logAppendBlock]
  repeat' split
  all_goals rfl

theorem showResponseBranch_data_eq (data : PyDict) (w : World) (tr : List Effect) :
    (showResponseBranch data w tr).data = data := by
  simp only [showResponseBranch]
  repeat' split
  all_goals first | rfl | apply logAppendBlock_data_eq

theorem example_execute_data_eq (data : PyDict) (w : World) :
    (example_execute data w).data = data := by
  simp only [example_execute]
  repeat' split
  all_goals first | rfl | apply showResponseBranch_data_eq

theorem example_condition_data_eq (data : PyDict) (w : World) :
    (example_condition data w).data = data := by
  simp only [example_condition]
  repeat' split
  all_goals rfl

theorem login_execute_data_eq (data : PyDict) (w : World) :
    (login_execute data w).data = data := by
  simp only [login_execute]
  repeat' split
  all_goals rfl

/-! ### Claim theorems -/

/-- C1: the claim says that for a mapping without a `show_response` key,
`example.execute` skips the log-append branch and does not crash.  On the
code as written the call crashes first: with the module globals as loaded,
`execute` on the empty mapping (which lacks `show_response`) raises a
NameError for the unbound global `response` and produces no effect at all. -/
theorem example_execute_crashes_without_show_response :
    List.lookup "show_response" ([] : PyDict) = Option.none ∧
    (example_execute [] (moduleWorld "" [])).result
      = Except.error (PyError.nameError "response") ∧
    (example_execute [] (moduleWorld "" [])).trace = [] :=
  ⟨rfl, rfl, rfl⟩

/-- C2: the claim says `condition` evaluates without side effects and returns
a boolean for both scripts.  `login_bruteforce_reset.condition` does return
`True` with no effects, but `example.condition` raises a NameError for the
unbound global `response` on every input, here on the mapping with
`code = 200`. -/
theorem example_condition_raises_instead_of_bool :
    (example_condition [("code", PyVal.pyInt 200)] (moduleWorld "" [])).result
      = Except.error (PyError.nameError "response") ∧
    (example_condition [("code", PyVal.pyInt 200)] (moduleWorld "" [])).trace = [] ∧
    (login_condition [("code", PyVal.pyInt 200)] (moduleWorld "" [])).result
      = Except.ok (PyVal.pyBool true) ∧
    (login_condition [("code", PyVal.pyInt 200)] (moduleWorld "" [])).trace = [] :=
  ⟨rfl, rfl, rfl, rfl⟩

/-- C3: `login_bruteforce_reset.execute` performs exactly one POST to the
fixed URL with the two-field body `username=wiener`, `password=peter`,
with no other effect, and its result, world and trace are identical for any
two `data` arguments: the function ignores its argument entirely. -/
theorem login_execute_single_fixed_post (data1 data2 : PyDict) (w : World) :
    (login_execute data1 w).trace = [Effect.httpPost loginUrl credentials] ∧
    (login_execute data1 w).trace.count (Effect.httpPost loginUrl credentials) = 1 ∧
    credentials = [("username", "wiener"), ("password", "peter")] ∧
    (login_execute data1 w).result = (login_execute data2 w).result ∧
    (login_execute data1 w).world = (login_execute data2 w).world ∧
    (login_execute data1 w).trace = (login_execute data2 w).trace := by
  cases h : w.netFault <;>
    simp [login_execute, h, credentials, List.count_singleton]

/-- C4: the claim says a call with `show_response=True` appends exactly one
line to the log and preserves the old content.  On the code as written the
call crashes first: with the module globals as loaded, `execute` on a mapping
with `show_response=True` raises a NameError for the unbound global
`response`, writes nothing, and leaves the log exactly as it was. -/
theorem example_execute_appends_nothing :
    (example_execute [("show_response", PyVal.pyBool true), ("payload", PyVal.pyStr "x")]
        (moduleWorld "old\n" [])).result = Except.error (PyError.nameError "response") ∧
    (example_execute [("show_response", PyVal.pyBool true), ("payload", PyVal.pyStr "x")]
        (moduleWorld "old\n" [])).world.successful_guesses = "old\n" ∧
    (example_execute [("show_response", PyVal.pyBool true), ("payload", PyVal.pyStr "x")]
        (moduleWorld "old\n" [])).trace = [] :=
  ⟨rfl, rfl, rfl⟩

/-- C5: with the module globals of `example.py` as loaded (neither `response`
nor `request_data` is ever bound), `execute` raises a NameError for
`response` at its very first lookup on every `data` mapping, produces no
effect, prints nothing, and leaves the log file untouched. -/
theorem example_execute_raises_nameError_for_all_data
    (data : PyDict) (log : String) (out : List String) :
    (example_execute data (moduleWorld log out)).result
      = Except.error (PyError.nameError "response") ∧
    (example_execute data (moduleWorld log out)).trace = [] ∧
    (example_execute data (moduleWorld log out)).world = moduleWorld log out ∧
    (example_execute data (moduleWorld log out)).world.successful_guesses = log ∧
    (example_execute data (moduleWorld log out)).world.stdout = out :=
  ⟨rfl, rfl, rfl, rfl, rfl⟩

/-- C6: executing the top level of `example.py` fails before either hook is
bound: the module has no import statement, so evaluating the annotations of
the first `def` raises a NameError for `Dict`. -/
theorem importExample_fails_before_hooks :
    importExample = Except.error (PyError.nameError "Dict") :=
  rfl

/-- C7: no hook of either script mutates the `data` mapping it receives:
after any of the four calls, whether it returns or raises, the mapping holds
the same entries it held on entry. -/
theorem hooks_never_mutate_data (data : PyDict) (w : World) :
    (example_condition data w).data = data ∧
    (example_execute data w).data = data ∧
    (login_condition data w).data = data ∧
    (login_execute data w).data = data :=
  ⟨example_condition_data_eq data w, example_execute_data_eq data w, rfl,
    login_execute_data_eq data w⟩

/-! ### Structural lemmas for the remaining claims -/

theorem printLargeBranch_ok_shape (isLarge : Bool) (w w1 : World) (tr1 : List Effect)
    (h : printLargeBranch isLarge w = Except.ok (w1, tr1)) :
    (tr1 = [] ∨ ∃ msg, tr1 = [Effect.printLine msg]) ∧ w1.openFds = w.openFds ∧
    w1.response = w.response ∧ w1.request_data = w.request_data := by
  unfold printLargeBranch at h
  split at h
  · split at h
    · exact absurd h (by simp)
    · split at h
      · exact absurd h (by simp)
      · simp only [Except.ok.injEq, Prod.mk.injEq] at h
        obtain ⟨hw, ht⟩ := h
        subst hw
        subst ht
        exact ⟨Or.inr ⟨_, rfl⟩, rfl, rfl, rfl⟩
  · simp only [Except.ok.injEq, Prod.mk.injEq] at h
    obtain ⟨hw, ht⟩ := h
    subst hw
    subst ht
    exact ⟨Or.inl rfl, rfl, rfl, rfl⟩

theorem logAppendBlock_spec (data : PyDict) (w : World) (tr : List Effect) :
    (logAppendBlock data w tr).world.openFds = w.openFds ∧
    ((logAppendBlock data w tr).trace
        = tr ++ [Effect.fileOpenAppend logName, Effect.fileClose logName] ∨
      ∃ line, (logAppendBlock data w tr).trace
        = tr ++ [Effect.fileOpenAppend logName, Effect.fileWrite logName line,
            Effect.fileClose logName]) := by
  simp only [logAppendBlock]
  split
  · exact ⟨rfl, Or.inl (by simp)⟩
  · split
    · exact ⟨rfl, Or.inl (by simp)⟩
    · rename_i v hsub
      split
      · exact ⟨rfl, Or.inl (by simp)⟩
      · exact ⟨rfl, Or.inr ⟨pyStrOf v ++ "\n", by simp⟩⟩

theorem showResponseBranch_spec (data : PyDict) (w : World) (tr : List Effect) :
    (showResponseBranch data w tr).world.openFds = w.openFds ∧
    ((showResponseBranch data w tr).trace = tr ∨
      (showResponseBranch data w tr).trace
        = tr ++ [Effect.fileOpenAppend logName, Effect.fileClose logName] ∨
      ∃ line, (showResponseBranch data w tr).trace
        = tr ++ [Effect.fileOpenAppend logName, Effect.fileWrite logName line,
            Effect.fileClose logName]) := by
  simp only [showResponseBranch]
  split
  · exact ⟨rfl, Or.inl rfl⟩
  · split
    · exact ⟨rfl, Or.inl rfl⟩
    · split
      · obtain ⟨h1, h2⟩ := logAppendBlock_spec data w tr
        exact ⟨h1, Or.inr h2⟩
      · exact ⟨rfl, Or.inl rfl⟩

theorem logAppendBlock_result_shape (data : PyDict) (w : World) (tr : List Effect) :
    (logAppendBlock data w tr).result = Except.ok PyVal.pyNone ∨
      ∃ e, (logAppendBlock data w tr).result = Except.error e := by
  simp only [logAppendBlock]
  split
  · exact Or.inr ⟨_, rfl⟩
  · split
    · exact Or.inr ⟨_, rfl⟩
    · split
      · exact Or.inr ⟨_, rfl⟩
      · exact Or.inl rfl

theorem showResponseBranch_result_shape (data : PyDict) (w : World) (tr : List Effect) :
    (showResponseBranch data w tr).result = Except.ok PyVal.pyNone ∨
      ∃ e, (showResponseBranch data w tr).result = Except.error e := by
  simp only [showResponseBranch]
  split
  · exact Or.inr ⟨_, rfl⟩
  · split
    · exact Or.inr ⟨_, rfl⟩
    · split
      · exact logAppendBlock_result_shape _ _ _
      · exact Or.inl rfl

theorem example_execute_result_shape (data : PyDict) (w : World) :
    (example_execute data w).result = Except.ok PyVal.pyNone ∨
      ∃ e, (example_execute data w).result = Except.error e := by
  unfold example_execute
  split
  · exact Or.inr ⟨_, rfl⟩
  · split
    · exact Or.inr ⟨_, rfl⟩
    · split
      · exact Or.inr ⟨_, rfl⟩
      · split
        · exact Or.inr ⟨_, rfl⟩
        · exact showResponseBranch_result_shape _ _ _

theorem login_execute_result_shape (data : PyDict) (w : World) :
    (login_execute data w).result = Except.ok PyVal.pyNone ∨
      ∃ e, (login_execute data w).result = Except.error e := by
  simp only [login_execute]
  split
  · exact Or.inr ⟨_, rfl⟩
  · exact Or.inl rfl

/-- C8: `example.execute` never leaks a descriptor for the log file: the set
of open descriptors after any call equals the set before it, opens and
closes of the log file in the effect trace are balanced, and whenever the
log-append branch is reached (the open appears in the trace) the last effect
of the call is the close of the log file, also when the write raises. -/
theorem example_execute_log_file_balanced (data : PyDict) (w : World) :
    (example_execute data w).world.openFds = w.openFds ∧
    ((example_execute data w).trace.count (Effect.fileOpenAppend logName)
      = (example_execute data w).trace.count (Effect.fileClose logName)) ∧
    (Effect.fileOpenAppend logName ∈ (example_execute data w).trace →
      (example_execute data w).trace.getLast? = some (Effect.fileClose logName)) := by
  unfold example_execute
  split
  · exact ⟨rfl, rfl, fun h => absurd h (by simp)⟩
  · split
    · exact ⟨rfl, rfl, fun h => absurd h (by simp)⟩
    · split
      · exact ⟨rfl, rfl, fun h => absurd h (by simp)⟩
      · split
        · exact ⟨rfl, rfl, fun h => absurd h (by simp)⟩
        · rename_i w1 tr1 hpb
          obtain ⟨htr1, hfds1, _, _⟩ := printLargeBranch_ok_shape _ w _ _ hpb
          obtain ⟨hfds2, hshape⟩ := showResponseBranch_spec data w1 tr1
          have hno : Effect.fileOpenAppend logName ∉ tr1 ∧
              Effect.fileClose logName ∉ tr1 := by
            rcases htr1 with h | ⟨msg, h⟩ <;> subst h <;> simp
          refine ⟨hfds2.trans hfds1, ?_, ?_⟩
          · rcases hshape with h | h | ⟨line, h⟩ <;> rw [h] <;>
              simp [List.count_eq_zero.mpr hno.1, List.count_eq_zero.mpr hno.2,
                List.count_cons, List.count_nil]
          · intro hmem
            rcases hshape with h | h | ⟨line, h⟩
            · rw [h] at hmem
              exact absurd hmem hno.1
            · rw [h]
              simp
            · rw [h]
              simp

/-- Witness for C8: in a world whose globals let `execute` reach the
log-append branch and whose file write raises an OSError, the descriptor
set is restored and the call ends on the close of the log file. -/
theorem example_execute_log_file_balanced_witness :
    (example_execute [] worldLogFault).world.openFds = worldLogFault.openFds ∧
    (example_execute [] worldLogFault).trace.getLast?
      = some (Effect.fileClose logName) := by
  have h := example_execute_log_file_balanced [] worldLogFault
  have htr : (example_execute [] worldLogFault).trace
      = [Effect.fileOpenAppend logName, Effect.fileClose logName] := rfl
  have hmem : Effect.fileOpenAppend logName ∈ (example_execute [] worldLogFault).trace := by
    rw [htr]
    exact List.mem_cons_self _ _
  exact ⟨h.1, h.2.2 hmem⟩

/-- C9: whenever `execute` of either script completes normally, the value it
returns is Python `None`: neither body contains a `return` statement. -/
theorem execute_returns_none_on_normal_completion (data : PyDict) (w : World) (v : PyVal) :
    ((login_execute data w).result = Except.ok v → v = PyVal.pyNone) ∧
    ((example_execute data w).result = Except.ok v → v = PyVal.pyNone) := by
  constructor
  · intro h
    rcases login_execute_result_shape data w with hs | ⟨e, hs⟩
    · exact (Except.ok.inj (hs.symm.trans h)).symm
    · exact absurd (hs.symm.trans h) (by simp)
  · intro h
    rcases example_execute_result_shape data w with hs | ⟨e, hs⟩
    · exact (Except.ok.inj (hs.symm.trans h)).symm
    · exact absurd (hs.symm.trans h) (by simp)

/-- Witness for C9: in a fault-free world whose `response` global is an empty
dictionary, both `execute` bodies complete normally and return `None`. -/
theorem execute_returns_none_on_normal_completion_witness :
    (login_execute [] worldQuiet).result = Except.ok PyVal.pyNone ∧
    (example_execute [] worldQuiet).result = Except.ok PyVal.pyNone ∧
    PyVal.pyNone = PyVal.pyNone ∧ PyVal.pyNone = PyVal.pyNone :=
  ⟨rfl, rfl,
    (execute_returns_none_on_normal_completion [] worldQuiet PyVal.pyNone).1 rfl,
    (execute_returns_none_on_normal_completion [] worldQuiet PyVal.pyNone).2 rfl⟩

/-- C10: no hook catches any exception, so each failure reaches the caller
unchanged: a network fault escapes `login_bruteforce_reset.execute` as is,
the unbound global makes `example.condition` raise, a missing
`candidate_string` key escapes the log-append block as the very KeyError the
subscript raised, and a file-write fault escapes the log-append block as the
very error the write raised. -/
theorem exceptions_propagate_unchanged (data : PyDict) (w : World)
    (e : PyError) (tr : List Effect) (d : List (String × PyVal)) :
    (w.netFault = some e → (login_execute data w).result = Except.error e) ∧
    (w.response = Option.none →
      (example_condition data w).result = Except.error (PyError.nameError "response")) ∧
    (w.request_data = some (PyVal.pyDict d) →
      List.lookup "candidate_string" d = Option.none →
      (logAppendBlock data w tr).result
        = Except.error (PyError.keyError "candidate_string")) ∧
    (∀ rd v, w.request_data = some rd →
      pySubscript rd "candidate_string" = Except.ok v →
      w.writeFault = some e → (logAppendBlock data w tr).result = Except.error e) := by
  refine ⟨fun hn => ?_, fun hr => ?_, fun hrd hlk => ?_, fun rd v hrd hsub hwf => ?_⟩
  · simp [login_execute, hn]
  · simp [example_condition, hr]
  · simp [logAppendBlock, hrd, pySubscript, hlk]
  · simp [logAppendBlock, hrd, hsub, hwf]

/-- Witness for C10: the three failure families observed at concrete inputs,
each produced by applying the propagation theorem. -/
theorem exceptions_propagate_unchanged_witness :
    (login_execute [] worldNetFault).result
      = Except.error (PyError.requestException "connection timed out") ∧
    (example_condition [] (moduleWorld "" [])).result
      = Except.error (PyError.nameError "response") ∧
    (logAppendBlock [] worldNoCandidate []).result
      = Except.error (PyError.keyError "candidate_string") ∧
    (logAppendBlock [] worldLogFault []).result
      = Except.error (PyError.osError "disk full") := by
  refine ⟨?_, ?_, ?_, ?_⟩
  · exact (exceptions_propagate_unchanged [] worldNetFault
      (PyError.requestException "connection timed out") [] []).1 rfl
  · exact (exceptions_propagate_unchanged [] (moduleWorld "" [])
      (PyError.nameError "response") [] []).2.1 rfl
  · exact (exceptions_propagate_unchanged [] worldNoCandidate
      (PyError.nameError "response") [] [("payload", PyVal.pyStr "x")]).2.2.1 rfl rfl
  · exact (exceptions_propagate_unchanged [] worldLogFault
      (PyError.osError "disk full") [] []).2.2.2
      (PyVal.pyDict [("candidate_string", PyVal.pyStr "guess")])
      (PyVal.pyStr "guess") rfl rfl rfl
